import Mathlib

/-!
Verification of the client-side authentication session lifecycle and the
API request/response pipeline of the task-tracking front-end.

The embedding follows the source:
- src/frontend/src/services/api.js — the axios instance with its request
  interceptor (attaches the bearer token from localStorage) and response
  interceptor (on status 401: remove the token, redirect to /login).
- src/frontend/src/hooks/useAuth.js — the useAuth hook and the
  AuthProvider with checkAuth, login, register, logout.

State is made explicit: a `World` carries the React session state, the
localStorage token slot, the trace of Authorization headers sent (one per
outgoing request) and the trace of redirects issued by the response
interceptor. The backend is an oracle: each network call is given its
outcome (success payload, HTTP error response with status and optional
detail, or network failure) as an argument.
-/

/-- UserProfile as returned by GET /api/auth/me (spec section 3). -/
structure UserProfile where
  id : Nat
  username : String
  full_name : String
  email : String
  role : String
deriving DecidableEq

/-- The React state of AuthProvider (useAuth.js lines 36-39):
user, isAuthenticated, loading, error. -/
structure Session where
  user : Option UserProfile
  isAuthenticated : Bool
  loading : Bool
  error : Option String
deriving DecidableEq

/-- Outcome of a single backend request, supplied as an oracle:
a success payload, an HTTP error response carrying a status code and the
optional `response.data.detail` message, or a network failure with no
response at all. -/
inductive ApiOutcome (α : Type) where
  | success (data : α)
  | httpError (status : Nat) (detail : Option String)
  | networkError
deriving DecidableEq

/-- The rejection value observed by a caller of the axios instance
(`error.response` present with a status and optional detail, or a
network error with no response). -/
inductive ApiError where
  | http (status : Nat) (detail : Option String)
  | network
deriving DecidableEq

/-- The JS expression `error.response?.data?.detail`. -/
def ApiError.detailOf : ApiError → Option String
  | .http _ d => d
  | .network => none

/-- Explicit state: the AuthProvider session, the localStorage slot for
the fixed key "token", the Authorization header of every request sent so
far (in order), and every redirect target assigned to
window.location.href by the response interceptor. -/
structure World where
  session : Session
  storage : Option String
  sentHeaders : List (Option String)
  redirects : List String
deriving DecidableEq

/-- Request interceptor (api.js lines 13-24): read the token from
localStorage; when present set the Authorization header to
"Bearer " ++ token, otherwise leave the header absent. -/
def authHeader : Option String → Option String
  | some t => some ("Bearer " ++ t)
  | none => none

/-- Response interceptor, error branch (api.js lines 29-36): when the
response status is 401, remove the persisted token and assign
window.location.href to /login; any other status leaves the world
untouched. -/
def on401 (w : World) (status : Nat) : World :=
  if status = 401 then
    { w with storage := none, redirects := w.redirects ++ ["/login"] }
  else w

/-- One request through the configured axios instance: the request
interceptor computes the Authorization header from the current storage
(recorded in sentHeaders), the response arrives with the given outcome,
and the response interceptor runs on error responses; the caller then
sees either the payload or the rejection. -/
def gatewayCall {α : Type} (w : World) (outcome : ApiOutcome α) :
    World × Except ApiError α :=
  let w1 := { w with sentHeaders := w.sentHeaders ++ [authHeader w.storage] }
  match outcome with
  | .success d => (w1, .ok d)
  | .httpError status detail => (on401 w1 status, .error (.http status detail))
  | .networkError => (w1, .error .network)

/-- A sequence of independent requests through the gateway (payloads
ignored), used to model several requests that each receive a response. -/
def processResponses (w : World) : List (ApiOutcome Unit) → World
  | [] => w
  | o :: rest => processResponses (gatewayCall w o).1 rest

/-- checkAuth (useAuth.js lines 46-66): read the token; if absent only
setLoading(false); otherwise call getCurrentUser through the gateway; on
success setUser/setIsAuthenticated(true); on any error remove the token,
setUser(null), setIsAuthenticated(false); finally setLoading(false). -/
def checkAuth (w : World) (meOutcome : ApiOutcome UserProfile) : World :=
  match w.storage with
  | none => { w with session := { w.session with loading := false } }
  | some _ =>
    let res := gatewayCall w meOutcome
    match res.2 with
    | .ok profile =>
        { res.1 with session :=
            { res.1.session with user := some profile, isAuthenticated := true,
                                 loading := false } }
    | .error _ =>
        { res.1 with storage := none,
                     session :=
            { res.1.session with user := none, isAuthenticated := false,
                                 loading := false } }

/-- Result value of login: `{success:true}` or `{success:false, error}`. -/
structure LoginResult where
  success : Bool
  error : Option String
deriving DecidableEq

/-- Generic fallback message of login (useAuth.js line 84). -/
def loginFallback : String := "Đăng nhập thất bại. Vui lòng thử lại."

/-- login (useAuth.js lines 68-88): setError(null); POST /api/auth/login;
on success store the returned access_token in localStorage, then GET
/api/auth/me, setUser/setIsAuthenticated(true) and return {success:true};
any error in either call is caught, the message is
`error.response?.data?.detail` or the generic fallback, setError(msg) and
return {success:false, error:msg}. -/
def login (w : World) (loginOutcome : ApiOutcome String)
    (meOutcome : ApiOutcome UserProfile) : World × LoginResult :=
  let w0 := { w with session := { w.session with error := none } }
  let res := gatewayCall w0 loginOutcome
  match res.2 with
  | .ok access_token =>
      let w1 := { res.1 with storage := some access_token }
      let res2 := gatewayCall w1 meOutcome
      match res2.2 with
      | .ok profile =>
          ({ res2.1 with session :=
              { res2.1.session with user := some profile,
                                    isAuthenticated := true } },
           ⟨true, none⟩)
      | .error e =>
          let msg := e.detailOf.getD loginFallback
          ({ res2.1 with session := { res2.1.session with error := some msg } },
           ⟨false, some msg⟩)
  | .error e =>
      let msg := e.detailOf.getD loginFallback
      ({ res.1 with session := { res.1.session with error := some msg } },
       ⟨false, some msg⟩)

/-- Result value of register: `{success, user?, error?}`. -/
structure RegisterResult where
  success : Bool
  user : Option UserProfile
  error : Option String
deriving DecidableEq

/-- Generic fallback message of register (useAuth.js line 104). -/
def registerFallback : String := "Đăng ký thất bại. Vui lòng thử lại."

/-- Message returned when creation succeeded but the auto-login failed
(useAuth.js line 101). -/
def registerLoginFailedMsg : String :=
  "Đăng ký thành công nhưng đăng nhập thất bại. Vui lòng đăng nhập thủ công."

/-- register (useAuth.js lines 90-108): setError(null); POST
/api/auth/register; on success run login with the same credentials; if
that login succeeds return {success:true, user:created}, otherwise return
{success:false, error:<created-but-login-failed message>}; an error of
the creation request itself is caught, setError(detail or fallback) and
{success:false, error:msg} is returned. -/
def register (w : World) (regOutcome : ApiOutcome UserProfile)
    (loginOutcome : ApiOutcome String) (meOutcome : ApiOutcome UserProfile) :
    World × RegisterResult :=
  let w0 := { w with session := { w.session with error := none } }
  let res := gatewayCall w0 regOutcome
  match res.2 with
  | .ok created =>
      let lr := login res.1 loginOutcome meOutcome
      if lr.2.success then (lr.1, ⟨true, some created, none⟩)
      else (lr.1, ⟨false, none, some registerLoginFailedMsg⟩)
  | .error e =>
      let msg := e.detailOf.getD registerFallback
      ({ res.1 with session := { res.1.session with error := some msg } },
       ⟨false, none, some msg⟩)

/-- logout (useAuth.js lines 110-123): POST /api/auth/logout; any error
is swallowed (only logged); the finally block always removes the token,
setUser(null), setIsAuthenticated(false), setError(null). -/
def logout (w : World) (outcome : ApiOutcome Unit) : World :=
  let res := gatewayCall w outcome
  { res.1 with storage := none,
               session := { res.1.session with user := none,
                                               isAuthenticated := false,
                                               error := none } }

/-- useAuth (useAuth.js lines 21-29): read the AuthContext (default value
null, so absent outside an AuthProvider); when absent throw
Error("useAuth must be used within an AuthProvider"), otherwise return
the context value (modeled by its session data). -/
def useAuth : Option Session → Except String Session
  | none => .error "useAuth must be used within an AuthProvider"
  | some ctx => .ok ctx

/-- Initial AuthProvider state (useAuth.js lines 36-39): user null,
isAuthenticated false, loading true, error null. -/
def initSession : Session := ⟨none, false, true, none⟩

/-- The world at process start with the given persisted token: initial
session state, no requests sent, no redirects. -/
def startupWorld (storage : Option String) : World :=
  ⟨initSession, storage, [], []⟩

/-- Helper: the gateway never writes a token; once the storage slot is
empty, any sequence of responses leaves it empty. -/
theorem gatewayCall_storage_none {α : Type} (w : World) (o : ApiOutcome α)
    (h : w.storage = none) : (gatewayCall w o).1.storage = none := by
  cases o with
  | success d => simpa [gatewayCall] using h
  | httpError s d =>
      simp only [gatewayCall, on401]
      split <;> simp [h]
  | networkError => simpa [gatewayCall] using h

/-- Helper: the empty storage slot is invariant under processResponses. -/
theorem processResponses_storage_none (l : List (ApiOutcome Unit)) :
    ∀ w : World, w.storage = none → (processResponses w l).storage = none := by
  induction l with
  | nil => intro w h; simpa [processResponses] using h
  | cons o rest ih =>
      intro w h
      simp only [processResponses]
      exact ih _ (gatewayCall_storage_none w o h)

/-- Helper: a 401 response appends exactly one redirect. -/
theorem gatewayCall_401_redirects {α : Type} (w : World) (d : Option String) :
    (gatewayCall w (ApiOutcome.httpError 401 d : ApiOutcome α)).1.redirects
      = w.redirects ++ ["/login"]
    ∧ (gatewayCall w (ApiOutcome.httpError 401 d : ApiOutcome α)).1.storage
      = none := by
  simp [gatewayCall, on401]

/-- Helper: n responses that are all 401s append n redirects. -/
theorem processResponses_replicate_401_redirects (d : Option String) (n : Nat) :
    ∀ w : World,
      (processResponses w
        (List.replicate n (ApiOutcome.httpError 401 d))).redirects.length
        = w.redirects.length + n := by
  induction n with
  | zero => intro w; simp [processResponses]
  | succ m ih =>
      intro w
      simp only [List.replicate, processResponses]
      rw [ih]
      simp [gatewayCall, on401]
      omega

/-- Helper: the gateway never touches the React session state. -/
theorem gatewayCall_session {α : Type} (w : World) (o : ApiOutcome α) :
    (gatewayCall w o).1.session = w.session := by
  cases o with
  | success d => rfl
  | httpError s d =>
      simp only [gatewayCall, on401]
      split <;> rfl
  | networkError => rfl

/-- Claim C1: for every login call against a backend that returns token T
from the credential exchange and profile P from the who-am-I request, the
final state is Authenticated (authenticated = true), the persisted token
equals T, the session user equals P, and the call returns success. -/
theorem C1_login_success (w : World) (T : String) (P : UserProfile) :
    (login w (ApiOutcome.success T) (ApiOutcome.success P)).2.success = true
    ∧ (login w (ApiOutcome.success T) (ApiOutcome.success P)).2.error = none
    ∧ (login w (ApiOutcome.success T) (ApiOutcome.success P)).1.session.isAuthenticated = true
    ∧ (login w (ApiOutcome.success T) (ApiOutcome.success P)).1.session.user = some P
    ∧ (login w (ApiOutcome.success T) (ApiOutcome.success P)).1.storage = some T := by
  simp [login, gatewayCall]

/-- Claim C2 counterexample: a credential-rejection response with HTTP
status 401 (the status the backend uses for rejected credentials) makes
the response interceptor delete the previously persisted token, so the
token persisted after the call is NOT the token persisted before it; the
call does still return success = false with the server message. -/
theorem C2_counterexample :
    ((⟨⟨none, false, false, none⟩, some "stale", [], []⟩ : World).storage
        = some "stale")
    ∧ (login (⟨⟨none, false, false, none⟩, some "stale", [], []⟩ : World)
         (ApiOutcome.httpError 401 (some "Incorrect username or password"))
         ApiOutcome.networkError).1.storage
        ≠ (⟨⟨none, false, false, none⟩, some "stale", [], []⟩ : World).storage
    ∧ (login (⟨⟨none, false, false, none⟩, some "stale", [], []⟩ : World)
         (ApiOutcome.httpError 401 (some "Incorrect username or password"))
         ApiOutcome.networkError).2
        = ⟨false, some "Incorrect username or password"⟩ := by
  refine ⟨rfl, ?_, ?_⟩ <;>
    simp [login, gatewayCall, on401, ApiError.detailOf]

/-- Claim C2 amended: a login call whose credential exchange is rejected
returns success = false with the server-provided detail (or the generic
fallback); the persisted token is unchanged when the rejection status is
not 401, while a 401 rejection additionally clears the persisted token
through the gateway response interceptor; a network failure likewise
returns failure with the fallback message and leaves the token
unchanged. -/
theorem C2_amended_login_rejection (w : World) (s : Nat) (d : Option String)
    (mo : ApiOutcome UserProfile) :
    (login w (ApiOutcome.httpError s d) mo).2.success = false
    ∧ (login w (ApiOutcome.httpError s d) mo).2.error
        = some (d.getD loginFallback)
    ∧ (login w (ApiOutcome.httpError s d) mo).1.storage
        = (if s = 401 then none else w.storage)
    ∧ (login w ApiOutcome.networkError mo).2
        = ⟨false, some loginFallback⟩
    ∧ (login w ApiOutcome.networkError mo).1.storage = w.storage := by
  refine ⟨?_, ?_, ?_, ?_, ?_⟩ <;>
    simp only [login, gatewayCall, on401, ApiError.detailOf] <;>
    (try split) <;> rfl

/-- Claim C3: at process start, without a persisted token the store
reaches Anonymous without sending any request; with a persisted token and
a successful who-am-I response P it reaches Authenticated with user = P;
with a persisted token and any failing response (HTTP error of any
status, or network failure) the token is removed and the store reaches
Anonymous. -/
theorem C3_startup :
    (∀ mo : ApiOutcome UserProfile,
       (checkAuth (startupWorld none) mo).session.isAuthenticated = false
       ∧ (checkAuth (startupWorld none) mo).session.loading = false
       ∧ (checkAuth (startupWorld none) mo).sentHeaders = [])
    ∧ (∀ (t : String) (P : UserProfile),
       (checkAuth (startupWorld (some t)) (ApiOutcome.success P)).session.isAuthenticated = true
       ∧ (checkAuth (startupWorld (some t)) (ApiOutcome.success P)).session.user = some P
       ∧ (checkAuth (startupWorld (some t)) (ApiOutcome.success P)).session.loading = false)
    ∧ (∀ (t : String) (s : Nat) (d : Option String),
       (checkAuth (startupWorld (some t)) (ApiOutcome.httpError s d)).storage = none
       ∧ (checkAuth (startupWorld (some t)) (ApiOutcome.httpError s d)).session.isAuthenticated = false
       ∧ (checkAuth (startupWorld (some t)) (ApiOutcome.httpError s d)).session.user = none
       ∧ (checkAuth (startupWorld (some t)) (ApiOutcome.httpError s d)).session.loading = false)
    ∧ (∀ t : String,
       (checkAuth (startupWorld (some t)) ApiOutcome.networkError).storage = none
       ∧ (checkAuth (startupWorld (some t)) ApiOutcome.networkError).session.isAuthenticated = false
       ∧ (checkAuth (startupWorld (some t)) ApiOutcome.networkError).session.user = none
       ∧ (checkAuth (startupWorld (some t)) ApiOutcome.networkError).session.loading = false) := by
  refine ⟨fun mo => ?_, fun t P => ?_, fun t s d => ?_, fun t => ?_⟩ <;>
    simp [checkAuth, startupWorld, initSession, gatewayCall, on401]

/-- Claim C4 counterexample: two concurrent requests that both receive a
401 response trigger two redirects to the login entry point, not exactly
one; the redirect count after the set is 2, contradicting the claimed
exactly-once redirect. -/
theorem C4_counterexample :
    (processResponses
        (⟨⟨none, true, false, none⟩, some "tok", [], []⟩ : World)
        [ApiOutcome.httpError 401 none, ApiOutcome.httpError 401 none]).redirects
      = ["/login", "/login"]
    ∧ (processResponses
        (⟨⟨none, true, false, none⟩, some "tok", [], []⟩ : World)
        [ApiOutcome.httpError 401 none, ApiOutcome.httpError 401 none]).redirects.length
      ≠ 1 := by
  refine ⟨?_, ?_⟩ <;>
    simp [processResponses, gatewayCall, on401]

/-- Claim C4 amended: every request that receives a 401 response clears
the persisted token and triggers one redirect to the login entry point;
for n + 1 requests that all receive 401, the token deletion leaves the
storage empty and exactly n + 1 redirects are triggered (one per failing
request, with no deduplication across concurrent requests). -/
theorem C4_amended_per_request_redirect (w : World) (d : Option String)
    (n : Nat) :
    (processResponses w
        (List.replicate (n + 1) (ApiOutcome.httpError 401 d))).storage = none
    ∧ (processResponses w
        (List.replicate (n + 1) (ApiOutcome.httpError 401 d))).redirects.length
        = w.redirects.length + (n + 1) := by
  constructor
  · rw [List.replicate_succ]
    simp only [processResponses]
    exact processResponses_storage_none _ _ (gatewayCall_401_redirects w d).2
  · exact processResponses_replicate_401_redirects d (n + 1) w

/-- Claim C5: every logout call, whatever the outcome of the server-side
invalidation request (success, any HTTP error, or network failure), ends
with authenticated = false, no user, and no persisted token; logout is a
total function of the embedding, so it completes without raising. -/
theorem C5_logout_always_anonymous (w : World) (o : ApiOutcome Unit) :
    (logout w o).session.isAuthenticated = false
    ∧ (logout w o).session.user = none
    ∧ (logout w o).storage = none := by
  refine ⟨?_, ?_, ?_⟩ <;> simp [logout]

/-- Claim C6: logout is idempotent: from every starting state and for
every pair of server outcomes, running logout twice leaves the session
state and the persisted storage identical to running it once. -/
theorem C6_logout_idempotent (w : World) (o1 o2 : ApiOutcome Unit) :
    (logout (logout w o1) o2).session = (logout w o1).session
    ∧ (logout (logout w o1) o2).storage = (logout w o1).storage := by
  constructor
  · simp [logout, gatewayCall_session]
  · simp [logout]

/-- Claim C7: the request interceptor runs exactly once per outgoing
request, appending one Authorization header computed from the storage at
send time: Bearer token when a token is persisted, absent otherwise —
for every endpoint, since all endpoints go through the same gateway. -/
theorem C7_auth_header (α : Type) (w : World) (o : ApiOutcome α) :
    (gatewayCall w o).1.sentHeaders = w.sentHeaders ++ [authHeader w.storage]
    ∧ (∀ t : String, authHeader (some t) = some ("Bearer " ++ t))
    ∧ authHeader none = none := by
  refine ⟨?_, fun t => rfl, rfl⟩
  cases o with
  | success d => rfl
  | httpError s d =>
      simp only [gatewayCall, on401]
      split <;> rfl
  | networkError => rfl

/-- Claim C8: when creation and the subsequent login both succeed,
register followed by its automatic login ends in the same Authenticated
session state and the same persisted token as calling login directly
with the same credentials (hence receiving the same token T and profile
P from the backend). -/
theorem C8_register_login_roundtrip (w : World) (created : UserProfile)
    (T : String) (P : UserProfile) :
    (register w (ApiOutcome.success created) (ApiOutcome.success T)
        (ApiOutcome.success P)).2.success = true
    ∧ (login w (ApiOutcome.success T) (ApiOutcome.success P)).2.success = true
    ∧ (register w (ApiOutcome.success created) (ApiOutcome.success T)
        (ApiOutcome.success P)).1.session
      = (login w (ApiOutcome.success T) (ApiOutcome.success P)).1.session
    ∧ (register w (ApiOutcome.success created) (ApiOutcome.success T)
        (ApiOutcome.success P)).1.storage
      = (login w (ApiOutcome.success T) (ApiOutcome.success P)).1.storage
    ∧ (register w (ApiOutcome.success created) (ApiOutcome.success T)
        (ApiOutcome.success P)).1.session.isAuthenticated = true := by
  refine ⟨?_, ?_, ?_, ?_, ?_⟩ <;>
    simp [register, login, gatewayCall]

/-- Claim C9: after every completed logout call the session error is
cleared to none, whatever error message was recorded before the call. -/
theorem C9_logout_clears_error (w : World) (o : ApiOutcome Unit) :
    (logout w o).session.error = none := by
  simp [logout]

/-- Claim C10: calling useAuth outside an AuthProvider (context absent)
throws the error "useAuth must be used within an AuthProvider" instead
of returning an absent session; inside a provider it returns the
provider context value unchanged. -/
theorem C10_useAuth_requires_provider :
    useAuth none = Except.error "useAuth must be used within an AuthProvider"
    ∧ ∀ v : Session, useAuth (some v) = Except.ok v :=
  ⟨rfl, fun _ => rfl⟩
